import Mathlib

/-!
Verification development for the mcpx MCP proxy.

Shallow embedding of the core subsystems of the repository:
connection pool (pool.py), health monitoring (health.py),
configuration models (config.py), the server manager
(server.py), result extraction and JSON unwrapping, TOON
compression gating (compression.py), shallow argument
validation, and the outward router (the call tool in
main and the web invoke endpoint).

Python values are modelled by the inductive type PyObj;
machine details that no claim touches (floats, unicode
escapes in JSON strings) are omitted and noted where the
corresponding definition is introduced.
-/

set_option maxRecDepth 4000

/-- Single-quote character, used to build Python error message text. -/
def sglQuote : String := (Char.ofNat 39).toString

/-- Wrap a string in single quotes, as Python f-strings in the source do. -/
def quoted (s : String) : String := sglQuote ++ s ++ sglQuote

/-- Python repr of a list of strings, e.g. a list with path renders as
left bracket, quoted path, right bracket. Assumes no element itself
contains a quote character (true for all inputs the claims exercise). -/
def pyListRepr (xs : List String) : String :=
  "[" ++ String.intercalate (", ") (xs.map quoted) ++ "]"

/-- Model of Python runtime values as they flow through the proxy:
JSON-like data plus the three MCP multimodal content classes
(TextContent, ImageContent, EmbeddedResource) and a catch-all for
other objects (carrying an optional model_dump and a str() form).
Floats are not modelled; no claim involves them. -/
inductive PyObj where
| pyNone : PyObj
| pyBool (b : Bool) : PyObj
| pyInt (n : Int) : PyObj
| pyStr (s : String) : PyObj
| pyList (xs : List PyObj) : PyObj
| pyDict (fields : List (String × PyObj)) : PyObj
| mmText (text : String) : PyObj
| mmImage (dat : String) (mimeType : String) : PyObj
| mmResource (resource : PyObj) : PyObj
| pyOpaque (dump : Option PyObj) (asStr : String) : PyObj

/-- Dictionary lookup on a field list (Python dict access by key).
Python dicts have unique keys, so first-match lookup is faithful. -/
def assocGet (fields : List (String × PyObj)) (k : String) : Option PyObj :=
  (fields.find? (fun p => p.1 == k)).map Prod.snd

/-- Key list of a dict field list (Python dict key iteration order). -/
def keysOf (fields : List (String × PyObj)) : List String :=
  fields.map Prod.fst

/- ------------------------------------------------------------------
Connection pool, translated from pool.py (class ConnectionPool).
Clients are identified by the order the factory produced them, so the
factory is modelled by a counter nextId. The available queue is FIFO:
get reads the front, put appends at the back. The in-use group is a
set; discard removes the client. Both private methods hold the pool
lock for their whole body, so each is one atomic transition.
------------------------------------------------------------------ -/

/-- State of one ConnectionPool (pool.py lines 25 to 44). -/
structure PoolState where
  name : String
  maxSize : Nat
  available : List Nat
  inUse : List Nat
  closed : Bool
  nextId : Nat

/-- Fresh pool as built by the constructor, with an empty queue and
no client in use. -/
def PoolState.init (maxSize : Nat) (name : String) : PoolState :=
  { name := name, maxSize := maxSize, available := [], inUse := [],
    closed := false, nextId := 0 }

/-- Translation of ConnectionPool._get_client (pool.py lines 62 to 81):
raise if closed; reuse the front of the available queue when nonempty;
otherwise call the factory for a brand-new client. There is no check
of maxSize and no waiting on this path. -/
def PoolState.getClient (p : PoolState) : Except String (PoolState × Nat) :=
  if p.closed then
    Except.error ("Connection pool " ++ quoted p.name ++ " is closed")
  else
    match p.available with
    | c :: rest =>
        Except.ok ({ p with available := rest, inUse := c :: p.inUse }, c)
    | [] =>
        Except.ok ({ p with inUse := p.nextId :: p.inUse,
                            nextId := p.nextId + 1 }, p.nextId)

/-- Translation of ConnectionPool._release_client (pool.py lines 83
to 106): discard from the in-use set; if the pool is closed the client
is destroyed; otherwise it is queued only while the queue holds fewer
than maxSize clients, else destroyed. -/
def PoolState.releaseClient (p : PoolState) (c : Nat) : PoolState :=
  let p1 := { p with inUse := p.inUse.filter (fun x => x != c) }
  if p1.closed then p1
  else if p1.available.length < p1.maxSize then
    { p1 with available := p1.available ++ [c] }
  else p1

/-- Translation of ConnectionPool.close (pool.py lines 108 to 132):
mark closed, destroy every queued client, best-effort destroy every
in-use client, clear both groups. -/
def PoolState.closePool (p : PoolState) : PoolState :=
  if p.closed then p
  else { p with closed := true, available := [], inUse := [] }

/-- Pool size property (pool.py lines 134 to 137): queued plus in use. -/
def PoolState.size (p : PoolState) : Nat :=
  p.available.length + p.inUse.length

/-- One pool operation issued by a caller. -/
inductive PoolOp where
| acquire : PoolOp
| release (c : Nat) : PoolOp
| closeOp : PoolOp

/-- Apply one operation; a failed acquire (closed pool) leaves the
state unchanged. -/
def applyPoolOp (p : PoolState) : PoolOp → PoolState
| PoolOp.acquire =>
    match p.getClient with
    | Except.ok (p2, _) => p2
    | Except.error _ => p
| PoolOp.release c => p.releaseClient c
| PoolOp.closeOp => p.closePool

/-- Run a sequence of pool operations. -/
def applyPoolOps (p : PoolState) (ops : List PoolOp) : PoolState :=
  ops.foldl applyPoolOp p

/- ------------------------------------------------------------------
Health monitoring, translated from health.py.
Timestamps are abstract Nat clock readings.
------------------------------------------------------------------ -/

/-- ServerHealth record (health.py lines 17 to 25). -/
structure ServerHealth where
  serverName : String
  status : String
  lastCheck : Option Nat
  lastError : Option String
  consecutiveFailures : Nat
  lastSuccess : Option Nat

/-- Field defaults of ServerHealth: status unknown, zero failures. -/
def ServerHealth.init (name : String) : ServerHealth :=
  { serverName := name, status := "unknown", lastCheck := Option.none,
    lastError := Option.none, consecutiveFailures := 0,
    lastSuccess := Option.none }

/-- Aggregate HealthStatus (health.py lines 28 to 34). -/
structure HealthStatus where
  servers : List (String × ServerHealth)
  totalHealthy : Nat
  totalUnhealthy : Nat
  totalUnknown : Nat

/-- Empty HealthStatus, as default-constructed. -/
def HealthStatus.empty : HealthStatus :=
  { servers := [], totalHealthy := 0, totalUnhealthy := 0, totalUnknown := 0 }

/-- Per-record effect of HealthStatus.update_server (health.py lines
45 to 55): a success sets status healthy, stamps both clocks, zeroes
the failure counter and clears the error; a failure sets status
unhealthy at once, stamps the check clock, increments the counter and
records the error text (or Unknown error). -/
def updateHealthRecord (s : ServerHealth) (isHealthy : Bool)
    (error : Option String) (now : Nat) : ServerHealth :=
  if isHealthy then
    { s with status := "healthy", lastCheck := some now,
             lastSuccess := some now, consecutiveFailures := 0,
             lastError := Option.none }
  else
    { s with status := "unhealthy", lastCheck := some now,
             consecutiveFailures := s.consecutiveFailures + 1,
             lastError := some (error.getD ("Unknown error")) }

/-- Recalculation of totals (health.py lines 59 to 63). -/
def recalcTotals (servers : List (String × ServerHealth)) :
    Nat × Nat × Nat :=
  ((servers.filter (fun p => p.2.status == "healthy")).length,
   (servers.filter (fun p => p.2.status == "unhealthy")).length,
   (servers.filter (fun p => p.2.status == "unknown")).length)

/-- Translation of HealthStatus.update_server (health.py lines 36 to
57): create the record when absent, apply the per-record update, then
recalculate the totals. -/
def HealthStatus.updateServer (hs : HealthStatus) (name : String)
    (isHealthy : Bool) (error : Option String) (now : Nat) : HealthStatus :=
  let servers0 :=
    if hs.servers.any (fun p => p.1 == name) then hs.servers
    else hs.servers ++ [(name, ServerHealth.init name)]
  let servers1 := servers0.map
    (fun p => if p.1 == name
              then (p.1, updateHealthRecord p.2 isHealthy error now)
              else p)
  let t := recalcTotals servers1
  { servers := servers1, totalHealthy := t.1,
    totalUnhealthy := t.2.1, totalUnknown := t.2.2 }

/-- Record lookup, as HealthChecker.get_server_health does. -/
def HealthStatus.getServer (hs : HealthStatus) (name : String) :
    Option ServerHealth :=
  (hs.servers.find? (fun p => p.1 == name)).map Prod.snd

/-- HealthChecker state (health.py lines 100 to 119). The failure
threshold is stored by the constructor; note that no method of the
class ever reads it again. -/
structure HealthChecker where
  checkInterval : Nat
  checkTimeout : Nat
  failureThreshold : Nat
  status : HealthStatus

/-- Effect of one probe outcome on the checker, as performed by
HealthChecker.check_server (health.py lines 129 to 171): every branch
forwards the outcome straight to HealthStatus.update_server, without
consulting failureThreshold. -/
def HealthChecker.recordProbe (hc : HealthChecker) (name : String)
    (ok : Bool) (error : Option String) (now : Nat) : HealthChecker :=
  { hc with status := hc.status.updateServer name ok error now }

/-- Methods defined on class HealthChecker in health.py. Attribute
lookup of any name outside this list raises AttributeError. -/
def healthCheckerMethods : List String :=
  ["set_session_callback", "check_server", "check_all_servers",
   "start", "stop", "status", "is_running",
   "get_server_health", "is_server_healthy"]

/- ------------------------------------------------------------------
JSON decoding, modelling Python json.loads as used by
ServerManager._unwrap_json_string (server.py lines 601 to 619).
The model covers JSON documents with null, booleans, integer
numerals, strings with single-character escapes, arrays and objects.
Floats, exponent numerals and unicode escapes are not modelled (no
claim exercises them); on those inputs this model declines to parse,
which in the unwrap function coincides with the decode-failure path.
------------------------------------------------------------------ -/

/-- Double-quote character. -/
def quoteCh : Char := Char.ofNat 34

/-- Backslash character. -/
def backslashCh : Char := Char.ofNat 92

/-- Left square bracket. -/
def lBrackCh : Char := Char.ofNat 91

/-- Right square bracket. -/
def rBrackCh : Char := Char.ofNat 93

/-- Left curly brace. -/
def lBraceCh : Char := Char.ofNat 123

/-- Right curly brace. -/
def rBraceCh : Char := Char.ofNat 125

/-- Comma character. -/
def commaCh : Char := Char.ofNat 44

/-- Colon character. -/
def colonCh : Char := Char.ofNat 58

/-- Minus character. -/
def minusCh : Char := Char.ofNat 45

/-- Skip JSON whitespace (space, tab, newline, carriage return). -/
def skipWs : List Char → List Char
| [] => []
| c :: cs =>
  if c = Char.ofNat 32 ∨ c = Char.ofNat 9 ∨ c = Char.ofNat 10 ∨
     c = Char.ofNat 13
  then skipWs cs else c :: cs

/-- JSON single-character escape table. -/
def escMap (c : Char) : Option Char :=
  if c = quoteCh then some quoteCh
  else if c = backslashCh then some backslashCh
  else if c = Char.ofNat 47 then some (Char.ofNat 47)
  else if c = Char.ofNat 110 then some (Char.ofNat 10)
  else if c = Char.ofNat 116 then some (Char.ofNat 9)
  else if c = Char.ofNat 114 then some (Char.ofNat 13)
  else if c = Char.ofNat 98 then some (Char.ofNat 8)
  else if c = Char.ofNat 102 then some (Char.ofNat 12)
  else Option.none

/-- Parse the body of a JSON string after the opening quote, returning
the decoded characters and the remaining input after the closing
quote. -/
def parseStrChars : List Char → Option (List Char × List Char)
| [] => Option.none
| c :: cs =>
  if c = quoteCh then some ([], cs)
  else if c = backslashCh then
    match cs with
    | [] => Option.none
    | e :: cs2 =>
      match escMap e with
      | some r =>
        match parseStrChars cs2 with
        | some (body, rest) => some (r :: body, rest)
        | Option.none => Option.none
      | Option.none => Option.none
  else
    match parseStrChars cs with
    | some (body, rest) => some (c :: body, rest)
    | Option.none => Option.none

/-- Take a maximal run of decimal digits. -/
def takeDigits : List Char → List Char × List Char
| [] => ([], [])
| c :: cs =>
  if c.isDigit then
    let r := takeDigits cs
    (c :: r.1, r.2)
  else ([], c :: cs)

/-- Numeric value of a digit run. -/
def digitsToNat (ds : List Char) : Nat :=
  ds.foldl (fun a c => a * 10 + (c.toNat - 48)) 0

mutual

/-- Parse one JSON value; fuel bounds the nesting depth. -/
def parseVal : Nat → List Char → Option (PyObj × List Char)
| 0, _ => Option.none
| Nat.succ fuel, cs0 =>
  match skipWs cs0 with
  | [] => Option.none
  | c :: rest =>
    if c = quoteCh then
      match parseStrChars rest with
      | some (body, rem) => some (PyObj.pyStr (String.mk body), rem)
      | Option.none => Option.none
    else if c = lBrackCh then
      match skipWs rest with
      | [] => Option.none
      | d :: rem2 =>
        if d = rBrackCh then some (PyObj.pyList [], rem2)
        else
          match parseArrItems fuel (d :: rem2) with
          | some (xs, rem3) => some (PyObj.pyList xs, rem3)
          | Option.none => Option.none
    else if c = lBraceCh then
      match skipWs rest with
      | [] => Option.none
      | d :: rem2 =>
        if d = rBraceCh then some (PyObj.pyDict [], rem2)
        else
          match parseObjItems fuel (d :: rem2) with
          | some (fs, rem3) => some (PyObj.pyDict fs, rem3)
          | Option.none => Option.none
    else if c = 't' then
      match rest with
      | c1 :: c2 :: c3 :: rem =>
        if c1 = 'r' ∧ c2 = 'u' ∧ c3 = 'e'
        then some (PyObj.pyBool true, rem) else Option.none
      | _ => Option.none
    else if c = 'f' then
      match rest with
      | c1 :: c2 :: c3 :: c4 :: rem =>
        if c1 = 'a' ∧ c2 = 'l' ∧ c3 = 's' ∧ c4 = 'e'
        then some (PyObj.pyBool false, rem) else Option.none
      | _ => Option.none
    else if c = 'n' then
      match rest with
      | c1 :: c2 :: c3 :: rem =>
        if c1 = 'u' ∧ c2 = 'l' ∧ c3 = 'l'
        then some (PyObj.pyNone, rem) else Option.none
      | _ => Option.none
    else if c = minusCh then
      match takeDigits rest with
      | ([], _) => Option.none
      | (ds, rem) => some (PyObj.pyInt (-(digitsToNat ds : Int)), rem)
    else if c.isDigit then
      match takeDigits (c :: rest) with
      | (ds, rem) => some (PyObj.pyInt ((digitsToNat ds : Int)), rem)
    else Option.none

/-- Parse comma-separated array elements up to the closing bracket. -/
def parseArrItems : Nat → List Char → Option (List PyObj × List Char)
| 0, _ => Option.none
| Nat.succ fuel, cs =>
  match parseVal fuel cs with
  | Option.none => Option.none
  | some (v, rem) =>
    match skipWs rem with
    | [] => Option.none
    | c :: rem2 =>
      if c = commaCh then
        match parseArrItems fuel rem2 with
        | some (xs, rem3) => some (v :: xs, rem3)
        | Option.none => Option.none
      else if c = rBrackCh then some ([v], rem2)
      else Option.none

/-- Parse comma-separated object members up to the closing brace. -/
def parseObjItems : Nat → List Char →
    Option (List (String × PyObj) × List Char)
| 0, _ => Option.none
| Nat.succ fuel, cs =>
  match skipWs cs with
  | [] => Option.none
  | c :: rest =>
    if c = quoteCh then
      match parseStrChars rest with
      | Option.none => Option.none
      | some (keyChars, rem) =>
        match skipWs rem with
        | [] => Option.none
        | d :: rem2 =>
          if d = colonCh then
            match parseVal fuel rem2 with
            | Option.none => Option.none
            | some (v, rem3) =>
              match skipWs rem3 with
              | [] => Option.none
              | e :: rem5 =>
                if e = commaCh then
                  match parseObjItems fuel rem5 with
                  | some (fs, rem6) =>
                      some ((String.mk keyChars, v) :: fs, rem6)
                  | Option.none => Option.none
                else if e = rBraceCh then
                  some ([(String.mk keyChars, v)], rem5)
                else Option.none
          else Option.none
    else Option.none

end

/-- Model of json.loads: one JSON document, with surrounding
whitespace allowed and nothing else trailing. -/
def jsonParse (s : String) : Option PyObj :=
  match parseVal (s.length + 1) s.toList with
  | some (v, rest) => if skipWs rest = [] then some v else Option.none
  | Option.none => Option.none

/- ------------------------------------------------------------------
Result extraction, translated from server.py
(_extract_result_data lines 540 to 599 and _unwrap_json_string
lines 601 to 619).
------------------------------------------------------------------ -/

/-- Translation of ServerManager._unwrap_json_string: empty text is
returned unchanged; otherwise decode, and when the decoded value is
itself a string decode once more; either failed decode returns the
text of that step unchanged. -/
def unwrapJsonString (text : String) : PyObj :=
  if text = "" then PyObj.pyStr text
  else
    match jsonParse text with
    | Option.none => PyObj.pyStr text
    | some parsed =>
      match parsed with
      | PyObj.pyStr s =>
        (match jsonParse s with
         | some v => v
         | Option.none => PyObj.pyStr s)
      | v => v

/-- Python hasattr of the text attribute: of the objects appearing in
content lists, only TextContent carries it. -/
def hasTextAttr : PyObj → Bool
| PyObj.mmText _ => true
| _ => false

/-- Translation of content.is_multimodal_content (content.py lines 28
to 43): TextContent, ImageContent and EmbeddedResource. -/
def isMultimodalContent : PyObj → Bool
| PyObj.mmText _ => true
| PyObj.mmImage _ _ => true
| PyObj.mmResource _ => true
| _ => false

/-- Python hasattr of model_dump with the dump value: the pydantic
content classes and opaque objects that provide one. -/
def modelDumpOf : PyObj → Option PyObj
| PyObj.mmText t =>
    some (PyObj.pyDict [("type", PyObj.pyStr "text"),
                        ("text", PyObj.pyStr t)])
| PyObj.mmImage d m =>
    some (PyObj.pyDict [("type", PyObj.pyStr "image"),
                        ("data", PyObj.pyStr d),
                        ("mimeType", PyObj.pyStr m)])
| PyObj.mmResource r =>
    some (PyObj.pyDict [("type", PyObj.pyStr "resource"),
                        ("resource", r)])
| PyObj.pyOpaque dump _ => dump
| _ => Option.none

/-- Python str() of a value, used only on the final fallback path. -/
def pyStrOf : PyObj → String
| PyObj.pyStr s => s
| PyObj.pyInt n => toString n
| PyObj.pyBool b => cond b ("True") ("False")
| PyObj.pyNone => "None"
| PyObj.pyOpaque _ s => s
| _ => "<object>"

/-- Single-item branch of _extract_result_data (server.py lines 557
to 572): a text item is JSON-unwrapped; other multimodal items are
returned verbatim; otherwise model_dump, else str. -/
def extractSingleItem (first : PyObj) : PyObj :=
  if hasTextAttr first then
    match first with
    | PyObj.mmText t => unwrapJsonString t
    | other => other
  else if isMultimodalContent first then first
  else
    match modelDumpOf first with
    | some d => d
    | Option.none => PyObj.pyStr (pyStrOf first)

/-- Per-item mapping of the pure-text multi-item branch (server.py
lines 581 to 588): text attribute, else model_dump, else str. -/
def extractTextsItem (item : PyObj) : PyObj :=
  if hasTextAttr item then
    match item with
    | PyObj.mmText t => PyObj.pyStr t
    | other => other
  else
    match modelDumpOf item with
    | some d => d
    | Option.none => PyObj.pyStr (pyStrOf item)

/-- Translation of ServerManager._extract_result_data on the content
list of an upstream CallToolResult: empty list is None; a singleton
uses the single-item branch; with several items, any multimodal item
makes the list pass through verbatim, else the text parts are
collected. -/
def extractResultData (content : List PyObj) : PyObj :=
  match content with
  | [] => PyObj.pyNone
  | [first] => extractSingleItem first
  | items =>
    if items.any isMultimodalContent then PyObj.pyList items
    else
      let texts := items.map extractTextsItem
      if texts.length > 1 then PyObj.pyList texts
      else
        match texts with
        | [t] => t
        | _ => PyObj.pyNone

/- ------------------------------------------------------------------
TOON compression gating, translated from compression.py.
The external toons.dumps encoder is a parameter; whether the toons
package imported successfully is the toonAvailable flag.
------------------------------------------------------------------ -/

/-- Python isinstance dict check. -/
def isDictObj : PyObj → Bool
| PyObj.pyDict _ => true
| _ => false

/-- Equality of string sets given as lists (frozenset equality). -/
def setEqStr (a b : List String) : Bool :=
  a.all (fun x => b.contains x) && b.all (fun x => a.contains x)

/-- All elements are dicts over one common key set (compression.py
lines 42 to 45); callers ensure the list is nonempty and all-dict. -/
def sameKeySets (xs : List PyObj) : Bool :=
  match xs with
  | [] => true
  | h :: t =>
    match h with
    | PyObj.pyDict f =>
        t.all (fun d =>
          match d with
          | PyObj.pyDict g => setEqStr (keysOf f) (keysOf g)
          | _ => false)
    | _ => false

/-- Translation of detect_data_type (compression.py lines 27 to 49). -/
def detectDataType (d : PyObj) : String :=
  match d with
  | PyObj.pyStr _ => "primitive"
  | PyObj.pyInt _ => "primitive"
  | PyObj.pyBool _ => "primitive"
  | PyObj.pyNone => "primitive"
  | PyObj.pyList xs =>
      if xs.isEmpty then "array"
      else if xs.all isDictObj then
        (if sameKeySets xs then "array" else "mixed")
      else "mixed"
  | PyObj.pyDict _ => "object"
  | _ => "other"

/-- A list value containing at least one multimodal item
(compression.py lines 81 to 84). -/
def hasMultimodalMember (d : PyObj) : Bool :=
  match d with
  | PyObj.pyList xs => xs.any isMultimodalContent
  | _ => false

/-- Translation of is_compressible (compression.py lines 52 to 109):
multimodal content, and lists containing it, are never compressible;
then the size gates by detected shape. -/
def isCompressible (d : PyObj) (minSize : Int) : Bool :=
  if isMultimodalContent d then false
  else if hasMultimodalMember d then false
  else
    let dt := detectDataType d
    if dt == "primitive" then false
    else if dt == "array" then
      (match d with
       | PyObj.pyList xs => decide ((xs.length : Int) ≥ minSize)
       | _ => false)
    else if dt == "object" then
      (match d with
       | PyObj.pyDict f => decide ((f.length : Int) ≥ minSize)
       | _ => false)
    else if dt == "mixed" then
      (match d with
       | PyObj.pyList xs => decide ((xs.length : Int) ≥ minSize * 2)
       | _ => false)
    else false

/-- ToonCompressor configuration (compression.py lines 119 to 128):
the enabled flag, the minimum size, and whether loading the toons
package succeeded. -/
structure ToonCompressor where
  enabled : Bool
  minSize : Int
  toonAvailable : Bool

/-- Translation of ToonCompressor.compress (compression.py lines 140
to 170); toonDumps is the external encoder, returning none when it
raises. -/
def ToonCompressor.compress (tc : ToonCompressor)
    (toonDumps : PyObj → Option String) (data : PyObj)
    (minSizeOverride : Option Int) : PyObj × Bool :=
  if !tc.enabled then (data, false)
  else
    let threshold := minSizeOverride.getD tc.minSize
    if !(isCompressible data threshold) then (data, false)
    else if !tc.toonAvailable then (data, false)
    else
      match toonDumps data with
      | some s => (PyObj.pyStr s, true)
      | Option.none => (data, false)

/- ------------------------------------------------------------------
Shallow argument validation, translated from
ServerManager._validate_arguments (server.py lines 511 to 538); the
module-level _validate_arguments in the main module (lines 324 to
354) performs the identical checks and differs only in returning the
message instead of raising.
------------------------------------------------------------------ -/

/-- Generic key lookup in an ordered key-value list. -/
def lookupKey {α : Type} (l : List (String × α)) (k : String) : Option α :=
  (l.find? (fun p => p.1 == k)).map Prod.snd

/-- Failure of the validation step: a ValidationError carrying the
message and the tool input schema, or a TypeError (raised by Python
when a membership test hashes an unhashable value). -/
inductive PyFailure where
| validationError (message : String) (toolSchema : List (String × PyObj))
| typeError

/-- Python membership test of a value against the string keys of a
dict: strings compare by value; other hashable values never equal a
string key; lists and dicts are unhashable and raise TypeError. -/
def pyHashMember (field : PyObj) (keys : List String) : Option Bool :=
  match field with
  | PyObj.pyStr s => some (keys.contains s)
  | PyObj.pyList _ => Option.none
  | PyObj.pyDict _ => Option.none
  | _ => some false

/-- Python f-string rendering of a schema-sourced value. -/
def pyFStrVal : PyObj → String
| PyObj.pyStr s => s
| PyObj.pyInt n => toString n
| PyObj.pyBool b => cond b ("True") ("False")
| PyObj.pyNone => "None"
| _ => "<object>"

/-- Required-field loop (server.py lines 524 to 528): the first
required entry absent from the argument keys raises. -/
def findMissingRequired (schema : List (String × PyObj))
    (reqs : List PyObj) (argKeys : List String) : Except PyFailure Unit :=
  match reqs with
  | [] => Except.ok ()
  | f :: rest =>
    match pyHashMember f argKeys with
    | Option.none => Except.error PyFailure.typeError
    | some true => findMissingRequired schema rest argKeys
    | some false =>
        Except.error (PyFailure.validationError
          ("Missing required argument: " ++ quoted (pyFStrVal f)) schema)

/-- Unknown-key loop (server.py lines 531 to 538): the first argument
key not listed under properties raises, quoting the available keys. -/
def findUnknownArg (schema : List (String × PyObj))
    (argKeys propKeys : List String) : Except PyFailure Unit :=
  match argKeys with
  | [] => Except.ok ()
  | k :: rest =>
    if propKeys.contains k then findUnknownArg schema rest propKeys
    else
      Except.error (PyFailure.validationError
        ("Unknown argument: " ++ quoted k ++ ". Available: " ++
         pyListRepr propKeys) schema)

/-- Translation of _validate_arguments: the required check runs only
when the required entry is a list, the unknown-key check only when the
properties entry is a dict; both default to empty when absent. -/
def validateArguments (arguments : List (String × PyObj))
    (inputSchema : List (String × PyObj)) : Except PyFailure Unit :=
  let required := (assocGet inputSchema ("required")).getD (PyObj.pyList [])
  let step1 :=
    match required with
    | PyObj.pyList reqs => findMissingRequired inputSchema reqs (keysOf arguments)
    | _ => Except.ok ()
  match step1 with
  | Except.error e => Except.error e
  | Except.ok _ =>
    let properties := (assocGet inputSchema ("properties")).getD (PyObj.pyDict [])
    match properties with
    | PyObj.pyDict props =>
        findUnknownArg inputSchema (keysOf arguments) (keysOf props)
    | _ => Except.ok ()

/- ------------------------------------------------------------------
Configuration models, from config.py. Pydantic models expose exactly
their declared fields (plus declared methods) as attributes; reading
any other attribute raises AttributeError.
------------------------------------------------------------------ -/

/-- Attributes of McpServerConfig (config.py lines 15 to 50): the six
declared fields and the one declared method. -/
def mcpServerConfigAttrs : List String :=
  ["type", "command", "args", "env", "url", "headers",
   "validate_for_server"]

/-- Attributes of ProxyConfig (config.py lines 53 to 77): the nine
declared fields; the class declares no methods. -/
def proxyConfigAttrs : List String :=
  ["mcpServers", "health_check_enabled", "health_check_interval",
   "health_check_timeout", "health_check_failure_threshold",
   "toon_compression_enabled", "toon_compression_min_size",
   "schema_compression_enabled", "include_structured_content"]

/-- Python attribute lookup against a declared attribute list. -/
def pyGetattr (attrs : List String) (attr : String) : Except String Unit :=
  if attrs.contains attr then Except.ok ()
  else Except.error ("AttributeError: no attribute " ++ quoted attr)

/-- Translation of ConfigManager.is_tool_disabled (config_manager.py
lines 184 to 193): a membership test on the disabled_tools attribute
of ProxyConfig. The parameter carries the value the attribute would
hold if it were declared; the lookup itself decides whether the read
succeeds. -/
def isToolDisabled (disabledTools : List String) (toolKey : String) :
    Except String Bool :=
  match pyGetattr proxyConfigAttrs ("disabled_tools") with
  | Except.error e => Except.error e
  | Except.ok _ => Except.ok (disabledTools.contains toolKey)

/- ------------------------------------------------------------------
Server manager, translated from server.py (class ServerManager).
Upstream interactions (client construction, list_tools,
list_resources, call_tool) are oracle parameters.
------------------------------------------------------------------ -/

/-- Cached tool entry (server.py lines 45 to 51). -/
structure ToolInfo where
  serverName : String
  name : String
  description : String
  inputSchema : List (String × PyObj)

/-- Cached server identity (server.py lines 36 to 42). -/
structure ServerInfo where
  name : String
  serverName : String
  version : String
  instructions : Option String

/-- Cached resource entry (server.py lines 54 to 62). -/
structure ResourceInfo where
  serverName : String
  uri : String
  name : String

/-- Manager caches (server.py lines 103 to 106): the pools map is
modelled by the list of backend names holding a pool; tool and
resource caches are keyed by name colon tool and name colon uri. -/
structure ManagerState where
  pools : List String
  tools : List (String × ToolInfo)
  resources : List (String × ResourceInfo)
  serverInfos : List (String × ServerInfo)

/-- Manager with no backend connected. -/
def ManagerState.empty : ManagerState :=
  { pools := [], tools := [], resources := [], serverInfos := [] }

/-- What the warm-up acquire of connect_server fetches upstream. -/
structure ConnectFetch where
  serverInfo : ServerInfo
  tools : List ToolInfo
  resources : List ResourceInfo

/-- Translation of ServerManager.connect_server (server.py lines 261
to 359). The enabled check on line 280 reads the enabled attribute of
McpServerConfig before the try block opens, so an AttributeError there
propagates to the caller; enabledFlag is the value that read would
produce if the field were declared. Inside the try block, the caches
and the pool entry are installed first, then the add_server call on
the health checker is looked up; its AttributeError is swallowed by
the except clause, which returns false with the caches kept. -/
def connectServer (st : ManagerState) (name : String) (configured : Bool)
    (enabledFlag : Bool) (validateOk : Bool)
    (fetch : Except String ConnectFetch) :
    Except String (ManagerState × Bool) :=
  if st.pools.contains name then Except.ok (st, true)
  else if !configured then Except.ok (st, false)
  else
    match pyGetattr mcpServerConfigAttrs ("enabled") with
    | Except.error e => Except.error e
    | Except.ok _ =>
      if !enabledFlag then Except.ok (st, false)
      else if !validateOk then Except.ok (st, false)
      else
        match fetch with
        | Except.error _ => Except.ok (st, false)
        | Except.ok f =>
          let st2 : ManagerState :=
            { st with
              serverInfos := st.serverInfos ++ [(name, f.serverInfo)],
              tools := st.tools ++
                f.tools.map (fun t => (name ++ ":" ++ t.name, t)),
              resources := st.resources ++
                f.resources.map (fun r => (name ++ ":" ++ r.uri, r)),
              pools := st.pools ++ [name] }
          match pyGetattr healthCheckerMethods ("add_server") with
          | Except.error _ => Except.ok (st2, false)
          | Except.ok _ => Except.ok (st2, true)

/-- Translation of ServerManager.disconnect_server (server.py lines
361 to 403): a name without a pool returns false; otherwise the try
block begins with the remove_server call on the health checker, whose
AttributeError is swallowed by the except clause and returns false
before the pool pop and the cache cleanup run. The cleanup itself
(reachable only if remove_server existed) pops the pool and strips
every cache entry whose key starts with the name and a colon. -/
def disconnectServer (st : ManagerState) (name : String) :
    ManagerState × Bool :=
  if !(st.pools.contains name) then (st, false)
  else
    match pyGetattr healthCheckerMethods ("remove_server") with
    | Except.error _ => (st, false)
    | Except.ok _ =>
      let cleaned : ManagerState :=
        { pools := st.pools.filter (fun n => n != name),
          tools := st.tools.filter
            (fun p => !(p.1.startsWith (name ++ ":"))),
          resources := st.resources.filter
            (fun p => !(p.1.startsWith (name ++ ":"))),
          serverInfos := st.serverInfos.filter (fun p => p.1 != name) }
      (cleaned, true)

/-- Execution result record (server.py lines 65 to 81). -/
structure ExecutionResult where
  success : Bool
  data : PyObj
  rawData : PyObj
  error : Option String
  compressed : Bool

/-- Typed errors raised by ServerManager.call, from errors.py. -/
inductive MgrError where
| serverNotFound (server : String) (availableServers : List String)
| toolNotFound (server : String) (tool : String)
    (availableTools : List String)
| validationFailed (message : String)
    (toolSchema : List (String × PyObj))
| executionError (server : String) (tool : String) (message : String)
| typeErr

/-- Tool names of one backend (server.py list_tools, lines 680
to 682). -/
def ManagerState.listToolNames (st : ManagerState) (server : String) :
    List String :=
  ((st.tools.filter (fun p => p.2.serverName == server)).map
    (fun p => p.2.name))

/-- Translation of ServerManager.call (server.py lines 451 to 509) on
an initialized manager: missing pool and missing tool raise the typed
not-found errors; validation failure raises; an upstream error inside
the try block is re-raised as ExecutionError; on success the content
is extracted, compressed, and wrapped in an ExecutionResult with the
success flag set. The upstream oracle stands for the pool acquire and
the call_tool round trip. -/
def managerCall (st : ManagerState) (tc : ToonCompressor)
    (toonDumps : PyObj → Option String)
    (upstream : Except String (List PyObj))
    (serverName toolName : String)
    (arguments : List (String × PyObj)) :
    Except MgrError ExecutionResult :=
  if !(st.pools.contains serverName) then
    Except.error (MgrError.serverNotFound serverName st.pools)
  else
    match lookupKey st.tools (serverName ++ ":" ++ toolName) with
    | Option.none =>
        Except.error (MgrError.toolNotFound serverName toolName
          (st.listToolNames serverName))
    | some ti =>
      match validateArguments arguments ti.inputSchema with
      | Except.error (PyFailure.validationError m sch) =>
          Except.error (MgrError.validationFailed m sch)
      | Except.error PyFailure.typeError => Except.error MgrError.typeErr
      | Except.ok _ =>
        match upstream with
        | Except.error e =>
            Except.error (MgrError.executionError serverName toolName e)
        | Except.ok content =>
          let data := extractResultData content
          let cw := tc.compress toonDumps data Option.none
          Except.ok { success := true, data := cw.1, rawData := data,
                      error := Option.none, compressed := cw.2 }

/- ------------------------------------------------------------------
Outward router: the call tool of the main module (lines 356 to 448)
and the invoke endpoint of web/api.py (lines 250 to 294).
------------------------------------------------------------------ -/

/-- Python method.split(dot, 1): the whole string when no dot occurs,
else the parts before and after the first dot. -/
def splitFirstDotAux : List Char → Option (List Char × List Char)
| [] => Option.none
| c :: cs =>
  if c = Char.ofNat 46 then some ([], cs)
  else
    match splitFirstDotAux cs with
    | some (a, b) => some (c :: a, b)
    | Option.none => Option.none

/-- Split a method identifier on its first dot. -/
def splitFirstDot (s : String) : List String :=
  match splitFirstDotAux s.toList with
  | some (a, b) => [String.mk a, String.mk b]
  | Option.none => [s]

/-- Observable outcome of the call tool up to upstream routing: an
in-band JSON error envelope, a request forwarded to the upstream
executor, or an uncaught Python exception. -/
inductive CallOutcome where
| errorEnvelope (fields : List (String × PyObj))
| forwardedUpstream (serverName : String) (toolName : String)
    (args : List (String × PyObj))
| pythonError (message : String)

/-- Registry view the call tool consults: connected backends and the
tool cache, plus the disabled-tools set (carried to show which
operations consult it). -/
structure RouterState where
  servers : List String
  tools : List (String × ToolInfo)
  disabledTools : List String

/-- Router-relevant configuration knob. -/
structure RouterCfg where
  schemaCompressionEnabled : Bool

/-- Tool names of one backend as the registry lists them. -/
def RouterState.listToolNames (st : RouterState) (server : String) :
    List String :=
  ((st.tools.filter (fun p => p.2.serverName == server)).map
    (fun p => p.2.name))

/-- Translation of _maybe_compress_schema (main module lines 207 to
219); tsRender stands for the external schema-to-TypeScript pass. -/
def maybeCompressSchema (cfg : RouterCfg)
    (tsRender : List (String × PyObj) → String)
    (schema : List (String × PyObj)) : PyObj :=
  if cfg.schemaCompressionEnabled then PyObj.pyStr (tsRender schema)
  else PyObj.pyDict schema

/-- Translation of the call tool body (main module lines 356 to 448)
up to the executor handoff: parse the method on its first dot, check
the backend, check the tool, run shallow validation, then forward the
arguments (nil replaced by the empty map) upstream. Note that no step
consults the disabled-tools set. -/
def mcpCall (cfg : RouterCfg) (tsRender : List (String × PyObj) → String)
    (st : RouterState) (method : String)
    (arguments : Option (List (String × PyObj))) : CallOutcome :=
  match splitFirstDot method with
  | [serverName, toolName] =>
    if !(st.servers.contains serverName) then
      if st.servers.isEmpty then
        CallOutcome.errorEnvelope
          [("error", PyObj.pyStr
              ("Server " ++ quoted serverName ++ " not found")),
           ("hint", PyObj.pyStr ("No MCP servers are currently connected"))]
      else
        CallOutcome.errorEnvelope
          [("error", PyObj.pyStr
              ("Server " ++ quoted serverName ++ " not found. Available: " ++
               pyListRepr st.servers))]
    else
      match lookupKey st.tools (serverName ++ ":" ++ toolName) with
      | Option.none =>
          CallOutcome.errorEnvelope
            [("error", PyObj.pyStr
                ("Tool " ++ quoted toolName ++ " not found on server " ++
                 quoted serverName ++ ". Available: " ++
                 pyListRepr (st.listToolNames serverName)))]
      | some ti =>
        match validateArguments (arguments.getD []) ti.inputSchema with
        | Except.error (PyFailure.validationError msg _) =>
            CallOutcome.errorEnvelope
              [("error", PyObj.pyStr ("Argument validation failed: " ++ msg)),
               ("tool_schema", maybeCompressSchema cfg tsRender ti.inputSchema)]
        | Except.error PyFailure.typeError =>
            CallOutcome.pythonError ("TypeError")
        | Except.ok _ =>
            CallOutcome.forwardedUpstream serverName toolName
              (arguments.getD [])
  | _ =>
    CallOutcome.errorEnvelope
      [("error", PyObj.pyStr
          ("Invalid method format: " ++ quoted method ++ ". Expected " ++
           quoted ("server.tool")))]

/-- Fields of an error envelope outcome. -/
def envFields : CallOutcome → List (String × PyObj)
| CallOutcome.errorEnvelope f => f
| _ => []

/-- Whether an envelope outcome carries a given key. -/
def envHasKey (o : CallOutcome) (k : String) : Bool :=
  (envFields o).any (fun p => p.1 == k)

/-- HTTP-level outcome of the invoke endpoint: a JSON response with a
status code, or an exception escaping the handler (the disabled-tools
check runs outside the try block, so its errors are unhandled). -/
inductive ApiResponse where
| jsonResp (statusCode : Nat) (body : List (String × PyObj))
| unhandledError (message : String)

/-- Translation of APIHandler.invoke_tool (web/api.py lines 250 to
294): parse the body, split the method, consult is_tool_disabled
before any routing, reject disabled tools with status 403, and only
then call the manager inside a try block; callResult stands for that
manager call. -/
def apiInvokeTool (disabledTools : List String)
    (bodyMethod : Option String)
    (callResult : Except String ExecutionResult) : ApiResponse :=
  match bodyMethod with
  | Option.none =>
      ApiResponse.jsonResp 400
        [("error", PyObj.pyStr
            ("Missing " ++ quoted ("method") ++ " field"))]
  | some method =>
    match splitFirstDot method with
    | [serverName, toolName] =>
      match isToolDisabled disabledTools (serverName ++ "." ++ toolName) with
      | Except.error e => ApiResponse.unhandledError e
      | Except.ok true =>
          ApiResponse.jsonResp 403
            [("error", PyObj.pyStr
                ("Tool " ++ quoted toolName ++ " is disabled"))]
      | Except.ok false =>
        match callResult with
        | Except.error msg =>
            ApiResponse.jsonResp 500 [("error", PyObj.pyStr msg)]
        | Except.ok r =>
          if !r.success then
            ApiResponse.jsonResp 500
              [("error", PyObj.pyStr ((r.error).getD ("")))]
          else
            ApiResponse.jsonResp 200
              [("success", PyObj.pyBool true),
               ("data", r.rawData),
               ("compressed", PyObj.pyBool r.compressed)]
    | _ =>
      ApiResponse.jsonResp 400
        [("error", PyObj.pyStr
            ("Invalid method format: " ++ quoted method ++ ". Expected " ++
             quoted ("server.tool")))]

/- ------------------------------------------------------------------
Concrete fixtures used by the claim theorems.
------------------------------------------------------------------ -/

/-- Schema of a tool with one required string property named path,
with the layout the claims exercise. -/
def mkSchema (props : List (String × PyObj)) (reqs : List String) :
    List (String × PyObj) :=
  [("properties", PyObj.pyDict props),
   ("required", PyObj.pyList (reqs.map PyObj.pyStr))]

/-- Property map with one string-typed field named path. -/
def pathProps : List (String × PyObj) :=
  [("path", PyObj.pyDict [("type", PyObj.pyStr "string")])]

/-- Cached read_file tool of a backend named fs. -/
def fsTool : ToolInfo :=
  { serverName := "fs", name := "read_file", description := "",
    inputSchema := mkSchema pathProps ["path"] }

/-- Server identity of the fs backend. -/
def fsInfo : ServerInfo :=
  { name := "fs", serverName := "fs", version := "1.0",
    instructions := Option.none }

/-- Warm-up fetch result of the fs backend. -/
def fsFetch : ConnectFetch :=
  { serverInfo := fsInfo, tools := [fsTool], resources := [] }

/-- Manager state holding the connected fs backend with its cached
tool, as left behind by a warm-up that cached everything. -/
def stWithFs : ManagerState :=
  { pools := ["fs"], tools := [("fs:read_file", fsTool)],
    resources := [], serverInfos := [("fs", fsInfo)] }

/-- Router state with the fs backend connected, its read_file tool
cached, and that very tool in the disabled set. -/
def routerStateFs : RouterState :=
  { servers := ["fs"], tools := [("fs:read_file", fsTool)],
    disabledTools := ["fs.read_file"] }

/-- Router state with no backend connected. -/
def emptyRouterState : RouterState :=
  { servers := [], tools := [], disabledTools := [] }

/-- Default router configuration (schema compression on). -/
def rcfgDefault : RouterCfg := { schemaCompressionEnabled := true }

/-- Health record of a currently healthy fs backend. -/
def healthyFs : ServerHealth :=
  { serverName := "fs", status := "healthy", lastCheck := some 0,
    lastError := Option.none, consecutiveFailures := 0,
    lastSuccess := some 0 }

/-- Health checker with the default threshold of two and the healthy
fs backend tracked. -/
def hcExample : HealthChecker :=
  { checkInterval := 30, checkTimeout := 5, failureThreshold := 2,
    status := { servers := [("fs", healthyFs)], totalHealthy := 1,
                totalUnhealthy := 0, totalUnknown := 0 } }


/- ------------------------------------------------------------------
Theorems. Shared lemmas first, then one theorem per claim.
------------------------------------------------------------------ -/

theorem applyPoolOp_maxSize (p : PoolState) (op : PoolOp) :
    (applyPoolOp p op).maxSize = p.maxSize := by
  cases op with
  | acquire =>
    by_cases hc : p.closed
    · simp [applyPoolOp, PoolState.getClient, hc]
    · rcases hav : p.available with _ | ⟨c, rest⟩ <;>
        simp [applyPoolOp, PoolState.getClient, hc, hav]
  | release c =>
    by_cases hc : p.closed
    · simp [applyPoolOp, PoolState.releaseClient, hc]
    · by_cases hlt : p.available.length < p.maxSize <;>
        simp [applyPoolOp, PoolState.releaseClient, hc, hlt]
  | closeOp =>
    by_cases hc : p.closed <;> simp [applyPoolOp, PoolState.closePool, hc]

theorem applyPoolOp_avail_le (p : PoolState) (op : PoolOp)
    (h : p.available.length ≤ p.maxSize) :
    (applyPoolOp p op).available.length ≤ p.maxSize := by
  cases op with
  | acquire =>
    by_cases hc : p.closed
    · simpa [applyPoolOp, PoolState.getClient, hc] using h
    · rcases hav : p.available with _ | ⟨c, rest⟩
      · simp [applyPoolOp, PoolState.getClient, hc, hav]
      · rw [hav] at h
        simp only [List.length_cons] at h
        simp [applyPoolOp, PoolState.getClient, hc, hav]
        omega
  | release c =>
    by_cases hc : p.closed
    · simpa [applyPoolOp, PoolState.releaseClient, hc] using h
    · by_cases hlt : p.available.length < p.maxSize
      · simp [applyPoolOp, PoolState.releaseClient, hc, hlt]
        omega
      · simpa [applyPoolOp, PoolState.releaseClient, hc, hlt] using h
  | closeOp =>
    by_cases hc : p.closed
    · simpa [applyPoolOp, PoolState.closePool, hc] using h
    · simp [applyPoolOp, PoolState.closePool, hc]

theorem poolOps_avail_le (ops : List PoolOp) (p : PoolState)
    (h : p.available.length ≤ p.maxSize) :
    (applyPoolOps p ops).available.length ≤ (applyPoolOps p ops).maxSize := by
  induction ops generalizing p with
  | nil => exact h
  | cons op rest ih =>
    have h1 : (applyPoolOp p op).available.length ≤ (applyPoolOp p op).maxSize := by
      rw [applyPoolOp_maxSize]
      exact applyPoolOp_avail_le p op h
    simpa [applyPoolOps, List.foldl_cons] using ih (applyPoolOp p op) h1

theorem poolOps_maxSize (ops : List PoolOp) (p : PoolState) :
    (applyPoolOps p ops).maxSize = p.maxSize := by
  induction ops generalizing p with
  | nil => rfl
  | cons op rest ih =>
    simpa [applyPoolOps, List.foldl_cons, applyPoolOp_maxSize]
      using ih (applyPoolOp p op)

/-- C1 counterexample: eleven acquires against a fresh pool of
capacity ten construct eleven clients, so the total of available plus
in-use clients reaches eleven, beyond the claimed bound of ten; no
acquire waited. -/
theorem c1_pool_capacity_counterexample :
    (applyPoolOps (PoolState.init 10 ("backend"))
      (List.replicate 11 PoolOp.acquire)).size = 11 ∧ 10 < 11 :=
  ⟨rfl, by decide⟩

/-- C1 amended: the pool bounds only its available queue at the fixed
capacity of ten: after any sequence of acquire, release and close
operations at most ten clients sit in the queue; but an acquire on an
open pool with an empty queue always constructs a new client at once,
growing the total by one instead of waiting, so the total of
available plus in-use clients is not bounded by the capacity. -/
theorem c1_pool_amended :
    (∀ ops : List PoolOp,
      (applyPoolOps (PoolState.init 10 ("backend")) ops).available.length ≤ 10)
    ∧ (∀ p : PoolState, p.closed = false → p.available = [] →
        p.getClient = Except.ok
          ({ p with inUse := p.nextId :: p.inUse,
                    nextId := p.nextId + 1 }, p.nextId)
        ∧ ({ p with inUse := p.nextId :: p.inUse,
                    nextId := p.nextId + 1 } : PoolState).size = p.size + 1) := by
  constructor
  · intro ops
    have h := poolOps_avail_le ops (PoolState.init 10 ("backend"))
      (by simp [PoolState.init])
    have hm := poolOps_maxSize ops (PoolState.init 10 ("backend"))
    rw [hm] at h
    simpa [PoolState.init] using h
  · intro p hc ha
    constructor
    · unfold PoolState.getClient
      simp [hc, ha]
    · unfold PoolState.size
      simp [ha]

/-- C1 witness: the amended statement applied to the fresh pool of
capacity ten, where the first acquire returns the first factory
client and grows the total from zero to one. -/
theorem c1_pool_amended_witness :
    (PoolState.init 10 ("backend")).closed = false
    ∧ (PoolState.init 10 ("backend")).available = []
    ∧ ((PoolState.init 10 ("backend")).getClient
        = Except.ok ({ PoolState.init 10 ("backend") with
                        inUse := [0], nextId := 1 }, 0)
      ∧ ({ PoolState.init 10 ("backend") with
            inUse := [0], nextId := 1 } : PoolState).size
          = (PoolState.init 10 ("backend")).size + 1) :=
  ⟨rfl, rfl, c1_pool_amended.2 (PoolState.init 10 ("backend")) rfl rfl⟩

theorem findMap_update (l : List (String × ServerHealth)) (name : String)
    (isH : Bool) (e : Option String) (t : Nat) :
    (l.map (fun p => if p.1 == name
        then (p.1, updateHealthRecord p.2 isH e t) else p)).find?
        (fun p => p.1 == name)
      = (l.find? (fun p => p.1 == name)).map
          (fun p => (p.1, updateHealthRecord p.2 isH e t)) := by
  induction l with
  | nil => rfl
  | cons h rest ih =>
    simp only [List.map_cons, List.find?]
    by_cases hk : (h.1 == name) = true
    · rw [if_pos hk]
      simp [hk]
    · rw [if_neg hk]
      have hk2 : (h.1 == name) = false := by simpa using hk
      simp only [hk2]
      simpa using ih

theorem getServer_update (hs : HealthStatus) (name : String) (isH : Bool)
    (e : Option String) (t : Nat) :
    (hs.updateServer name isH e t).getServer name
      = some (updateHealthRecord
          ((hs.getServer name).getD (ServerHealth.init name)) isH e t) := by
  simp only [HealthStatus.updateServer, HealthStatus.getServer]
  by_cases hany : hs.servers.any (fun p => p.1 == name) = true
  · rw [if_pos hany, findMap_update]
    have hsome : (hs.servers.find? (fun p => p.1 == name)).isSome := by
      rw [List.find?_isSome]
      simpa using List.any_eq_true.mp hany
    obtain ⟨pr, hpr⟩ := Option.isSome_iff_exists.mp hsome
    rw [hpr]
    simp
  · have hnone : hs.servers.find? (fun p => p.1 == name) = Option.none := by
      rw [List.find?_eq_none]
      intro x hx hpx
      exact hany (List.any_eq_true.mpr ⟨x, hx, hpx⟩)
    rw [if_neg hany, List.map_append, List.find?_append, findMap_update, hnone]
    simp [List.find?_cons]

/-- C2 counterexample: with the default threshold of two, a single
failed probe on a currently healthy backend already flips the status
to unhealthy at a consecutive-failure count of one, below the
threshold; the claim said the status is not yet unhealthy there. -/
theorem c2_health_first_failure_counterexample :
    hcExample.failureThreshold = 2
    ∧ ((hcExample.status.getServer ("fs")).map ServerHealth.status)
        = some ("healthy")
    ∧ (((hcExample.recordProbe ("fs") false (some ("probe timeout")) 1).status.getServer ("fs")).map ServerHealth.status)
        = some ("unhealthy")
    ∧ (((hcExample.recordProbe ("fs") false (some ("probe timeout")) 1).status.getServer ("fs")).map ServerHealth.consecutiveFailures)
        = some 1
    ∧ 1 < 2 :=
  ⟨rfl, rfl, rfl, rfl, by decide⟩

/-- C2 amended: every failed probe sets the backend status to
unhealthy at once and increments the consecutive-failure count; the
configured failure threshold is stored by the checker but never
consulted by any update. Any successful probe sets the status to
healthy and resets the count to zero. The statement quantifies over
the whole checker, hence over every threshold value. -/
theorem c2_health_amended (hc : HealthChecker) (name : String)
    (e : Option String) (t : Nat) :
    (((hc.recordProbe name false e t).status.getServer name).map ServerHealth.status)
        = some ("unhealthy")
    ∧ (((hc.recordProbe name false e t).status.getServer name).map ServerHealth.consecutiveFailures)
        = some ((((hc.status.getServer name).map ServerHealth.consecutiveFailures).getD 0) + 1)
    ∧ (((hc.recordProbe name true e t).status.getServer name).map ServerHealth.status)
        = some ("healthy")
    ∧ (((hc.recordProbe name true e t).status.getServer name).map ServerHealth.consecutiveFailures)
        = some 0 := by
  unfold HealthChecker.recordProbe
  refine ⟨?_, ?_, ?_, ?_⟩ <;>
    simp only [getServer_update] <;>
    cases h : hc.status.getServer name <;>
    simp [updateHealthRecord, ServerHealth.init, h]

/-- C3 code bug, evaluated at the failing input: connecting the
configured fs backend raises AttributeError because McpServerConfig
declares no enabled field (the read happens before the try block), and
disconnecting a connected fs backend returns false while leaving the
pool, the cached tool and the server info in place, because the
remove_server method the code calls does not exist on HealthChecker
and the resulting AttributeError is swallowed before any cleanup. -/
theorem c3_connect_disconnect_bug :
    connectServer ManagerState.empty ("fs") true true true (Except.ok fsFetch)
      = Except.error ("AttributeError: no attribute " ++ quoted ("enabled"))
    ∧ (disconnectServer stWithFs ("fs")).2 = false
    ∧ (disconnectServer stWithFs ("fs")).1 = stWithFs
    ∧ stWithFs.pools = ["fs"]
    ∧ stWithFs.tools.length = 1 :=
  ⟨rfl, rfl, rfl, rfl, rfl⟩

/-- C4 code bug, evaluated at the failing input: the MCP call
operation routes a disabled tool upstream exactly as an enabled one
(its outcome never depends on the disabled-tools set), and the web
invoke endpoint, whose disabled check runs before routing, raises an
unhandled AttributeError because ProxyConfig declares no
disabled_tools field; neither operation produces a tool-disabled
rejection. -/
theorem c4_disabled_tool_forwarded :
    (∀ tsR : List (String × PyObj) → String,
      mcpCall rcfgDefault tsR routerStateFs ("fs.read_file")
          (some [(("path"), PyObj.pyStr ("/x"))])
        = CallOutcome.forwardedUpstream ("fs") ("read_file")
            [(("path"), PyObj.pyStr ("/x"))])
    ∧ (∀ (cfg : RouterCfg) (tsR : List (String × PyObj) → String)
        (servers : List String) (tools : List (String × ToolInfo))
        (d1 d2 : List String) (method : String)
        (args : Option (List (String × PyObj))),
        mcpCall cfg tsR ⟨servers, tools, d1⟩ method args
          = mcpCall cfg tsR ⟨servers, tools, d2⟩ method args)
    ∧ apiInvokeTool ["fs.read_file"] (some ("fs.read_file"))
        (Except.error ("unused"))
        = ApiResponse.unhandledError
            ("AttributeError: no attribute " ++ quoted ("disabled_tools")) := by
  refine ⟨fun tsR => rfl, fun cfg tsR servers tools d1 d2 method args => rfl, rfl⟩

/-- C5 code bug, evaluated at the failing reads: McpServerConfig
declares no enabled attribute and ProxyConfig declares no
disabled_tools attribute, so reading either raises AttributeError and
the tool-disabled membership test can never run. -/
theorem c5_config_fields_missing :
    mcpServerConfigAttrs.contains ("enabled") = false
    ∧ proxyConfigAttrs.contains ("disabled_tools") = false
    ∧ pyGetattr mcpServerConfigAttrs ("enabled")
        = Except.error ("AttributeError: no attribute " ++ quoted ("enabled"))
    ∧ pyGetattr proxyConfigAttrs ("disabled_tools")
        = Except.error
            ("AttributeError: no attribute " ++ quoted ("disabled_tools"))
    ∧ isToolDisabled [] ("fs.read_file")
        = Except.error
            ("AttributeError: no attribute " ++ quoted ("disabled_tools")) :=
  ⟨rfl, rfl, rfl, rfl, rfl⟩

/-- C6 counterexample: with no backend connected, the call operation
answers the method x.y with an envelope that carries the error and
hint fields but no code field, contradicting the claimed envelope
with code SERVER_NOT_FOUND. -/
theorem c6_envelope_no_code_counterexample :
    envHasKey (mcpCall rcfgDefault (fun _ => "") emptyRouterState ("x.y")
        (some [])) ("code") = false
    ∧ envHasKey (mcpCall rcfgDefault (fun _ => "") emptyRouterState ("x.y")
        (some [])) ("error") = true
    ∧ envHasKey (mcpCall rcfgDefault (fun _ => "") emptyRouterState ("x.y")
        (some [])) ("hint") = true :=
  ⟨rfl, rfl, rfl⟩

/-- C6 amended: with no backend connected, invoking x.y returns the
in-band envelope holding exactly the error text that the server x was
not found and the hint that no MCP servers are currently connected;
the envelope carries no code field because the call path builds the
dictionary inline instead of using the error-class serializer. -/
theorem c6_envelope_amended :
    mcpCall rcfgDefault (fun _ => "") emptyRouterState ("x.y") (some [])
      = CallOutcome.errorEnvelope
          [(("error"), PyObj.pyStr
              ("Server " ++ quoted ("x") ++ " not found")),
           (("hint"), PyObj.pyStr ("No MCP servers are currently connected"))] :=
  rfl

/-- C7 confirmed: extraction of a result whose content list holds
exactly one text item JSON-decodes the text; when the decoded value
is itself a string it is decoded once more, and either failed decode
returns the text of that step unchanged (the empty text, which the
source returns without attempting a decode, coincides with the
decode-failure case); the concrete double-encoded body decodes to the
one-record list. -/
theorem c7_single_text_extraction :
    (∀ s : String,
      extractResultData [PyObj.mmText s] = unwrapJsonString s
      ∧ unwrapJsonString s =
          (match jsonParse s with
           | Option.none => PyObj.pyStr s
           | some (PyObj.pyStr t) =>
               (match jsonParse t with
                | some v => v
                | Option.none => PyObj.pyStr t)
           | some v => v))
    ∧ unwrapJsonString ("\"[\x7b\\\"k\\\":1\x7d]\"")
        = PyObj.pyList [PyObj.pyDict [(("k"), PyObj.pyInt 1)]] := by
  constructor
  · intro s
    constructor
    · rfl
    · by_cases hs : s = ""
      · subst hs; rfl
      · simp only [unwrapJsonString, hs, if_false]
        rcases hj : jsonParse s with _ | v
        · simp [hj]
        · cases v <;> simp [hj]
  · rfl

theorem findMissingRequired_strs (schema : List (String × PyObj))
    (reqs : List String) (argKeys : List String) :
    findMissingRequired schema (reqs.map PyObj.pyStr) argKeys
      = (match reqs.find? (fun f => !(argKeys.contains f)) with
         | some f => Except.error (PyFailure.validationError
             ("Missing required argument: " ++ quoted f) schema)
         | Option.none => Except.ok ()) := by
  induction reqs with
  | nil => rfl
  | cons f rest ih =>
    simp only [List.map_cons, findMissingRequired, pyHashMember, List.find?]
    cases hf : argKeys.contains f
    · rfl
    · exact ih

theorem findUnknownArg_eq (schema : List (String × PyObj))
    (argKeys propKeys : List String) :
    findUnknownArg schema argKeys propKeys
      = (match argKeys.find? (fun k => !(propKeys.contains k)) with
         | some k => Except.error (PyFailure.validationError
             ("Unknown argument: " ++ quoted k ++ ". Available: " ++
              pyListRepr propKeys) schema)
         | Option.none => Except.ok ()) := by
  induction argKeys with
  | nil => rfl
  | cons k rest ih =>
    simp only [findUnknownArg, List.find?]
    cases hk : propKeys.contains k
    · rfl
    · exact ih

theorem validate_mkSchema (props : List (String × PyObj))
    (reqs : List String) (args : List (String × PyObj)) :
    validateArguments args (mkSchema props reqs)
      = (match reqs.find? (fun f => !((keysOf args).contains f)) with
         | some f => Except.error (PyFailure.validationError
             ("Missing required argument: " ++ quoted f) (mkSchema props reqs))
         | Option.none =>
           (match (keysOf args).find? (fun k => !((keysOf props).contains k)) with
            | some k => Except.error (PyFailure.validationError
                ("Unknown argument: " ++ quoted k ++ ". Available: " ++
                 pyListRepr (keysOf props)) (mkSchema props reqs))
            | Option.none => Except.ok ())) := by
  have h1 : assocGet (mkSchema props reqs) ("required")
      = some (PyObj.pyList (reqs.map PyObj.pyStr)) := rfl
  have h2 : assocGet (mkSchema props reqs) ("properties")
      = some (PyObj.pyDict props) := rfl
  simp only [validateArguments, h1, h2, Option.getD,
    findMissingRequired_strs, findUnknownArg_eq]
  cases hfind : reqs.find? (fun f => !((keysOf args).contains f)) <;> simp

/-- C8 confirmed: shallow validation succeeds exactly when every
required field is present and every supplied key is declared; the
first missing required field produces the missing-argument message
with the schema attached, the first unknown key produces the
unknown-argument message listing the available keys, and the verdict
depends only on the argument keys, never on any argument value, so no
deeper type, format or value checking happens. -/
theorem c8_shallow_validation (props : List (String × PyObj))
    (reqs : List String) (args : List (String × PyObj)) :
    (validateArguments args (mkSchema props reqs) = Except.ok ()
      ↔ (∀ f ∈ reqs, f ∈ keysOf args) ∧ (∀ k ∈ keysOf args, k ∈ keysOf props))
    ∧ (∀ f : String,
        reqs.find? (fun x => !((keysOf args).contains x)) = some f →
        validateArguments args (mkSchema props reqs)
          = Except.error (PyFailure.validationError
              ("Missing required argument: " ++ quoted f)
              (mkSchema props reqs)))
    ∧ (∀ k : String,
        (∀ f ∈ reqs, f ∈ keysOf args) →
        (keysOf args).find? (fun x => !((keysOf props).contains x)) = some k →
        validateArguments args (mkSchema props reqs)
          = Except.error (PyFailure.validationError
              ("Unknown argument: " ++ quoted k ++ ". Available: " ++
               pyListRepr (keysOf props)) (mkSchema props reqs)))
    ∧ (∀ args2 : List (String × PyObj), keysOf args = keysOf args2 →
        validateArguments args (mkSchema props reqs)
          = validateArguments args2 (mkSchema props reqs)) := by
  refine ⟨?_, ?_, ?_, ?_⟩
  · rw [validate_mkSchema]
    rcases h1 : reqs.find? (fun x => !((keysOf args).contains x)) with _ | f
    · rcases h2 : (keysOf args).find? (fun x => !((keysOf props).contains x))
        with _ | k
      · constructor
        · intro _
          refine ⟨fun f hf => ?_, fun k hk => ?_⟩
          · have h := List.find?_eq_none.mp h1 f hf
            simpa using h
          · have h := List.find?_eq_none.mp h2 k hk
            simpa using h
        · intro _
          rfl
      · constructor
        · intro h
          exact Except.noConfusion h
        · intro hrhs
          exfalso
          obtain ⟨_, hall⟩ := hrhs
          have hkmem := List.mem_of_find?_eq_some h2
          have hkp := List.find?_some h2
          simp at hkp
          exact hkp (hall k hkmem)
    · constructor
      · intro h
        exact Except.noConfusion h
      · intro hrhs
        exfalso
        obtain ⟨hreq, _⟩ := hrhs
        have hm := List.mem_of_find?_eq_some h1
        have hp := List.find?_some h1
        simp at hp
        exact hp (hreq f hm)
  · intro f h
    rw [validate_mkSchema, h]
  · intro k hreq h2
    have h1 : reqs.find? (fun x => !((keysOf args).contains x))
        = Option.none := by
      rw [List.find?_eq_none]
      intro x hx
      simp [hreq x hx]
    rw [validate_mkSchema, h1, h2]
  · intro args2 hkeys
    rw [validate_mkSchema, validate_mkSchema, hkeys]

/-- C8 witness: the two spec scenarios, evaluated through the main
theorem: invoking read_file with no arguments yields the
missing-argument error carrying the schema, and supplying the
undeclared mode key yields the unknown-argument error listing the
available path key. -/
theorem c8_shallow_validation_witness :
    validateArguments [] (mkSchema pathProps ["path"])
      = Except.error (PyFailure.validationError
          ("Missing required argument: " ++ quoted ("path"))
          (mkSchema pathProps ["path"]))
    ∧ validateArguments
        [(("path"), PyObj.pyStr ("/x")), (("mode"), PyObj.pyStr ("fast"))]
        (mkSchema pathProps ["path"])
      = Except.error (PyFailure.validationError
          ("Unknown argument: " ++ quoted ("mode") ++ ". Available: " ++
           pyListRepr (keysOf pathProps)) (mkSchema pathProps ["path"])) :=
  ⟨(c8_shallow_validation pathProps ["path"] []).2.1 ("path") rfl,
   (c8_shallow_validation pathProps ["path"]
      [(("path"), PyObj.pyStr ("/x")), (("mode"), PyObj.pyStr ("fast"))]).2.2.1
      ("mode") (by decide) rfl⟩

/-- C9 confirmed: for every multimodal content item, and every list
containing at least one multimodal item, the compression pass returns
the value unchanged with the compressed flag false, for every
compressor configuration (enabled or not, any minimum size, any
override, toons package present or not) and every encoder. -/
theorem c9_multimodal_noop (tc : ToonCompressor)
    (toonDumps : PyObj → Option String) (d : PyObj) (ms : Option Int)
    (h : isMultimodalContent d = true ∨ hasMultimodalMember d = true) :
    tc.compress toonDumps d ms = (d, false) := by
  have hic : ∀ t : Int, isCompressible d t = false := by
    intro t
    unfold isCompressible
    rcases h with h | h
    · simp [h]
    · cases hmc : isMultimodalContent d <;> simp [hmc, h]
  unfold ToonCompressor.compress
  cases he : tc.enabled
  · simp [he]
  · simp [he, hic]

/-- C9 witness: the compression pass at a single image item and at a
list holding a text content item, with compression enabled, minimum
size one and the toons package available. -/
theorem c9_multimodal_noop_witness :
    ToonCompressor.compress ⟨true, 1, true⟩ (fun _ => some ("x"))
        (PyObj.mmImage ("img") ("image/png")) Option.none
      = (PyObj.mmImage ("img") ("image/png"), false)
    ∧ ToonCompressor.compress ⟨true, 1, true⟩ (fun _ => some ("x"))
        (PyObj.pyList [PyObj.mmText ("t")]) Option.none
      = (PyObj.pyList [PyObj.mmText ("t")], false) :=
  ⟨c9_multimodal_noop ⟨true, 1, true⟩ (fun _ => some ("x"))
      (PyObj.mmImage ("img") ("image/png")) Option.none (Or.inl rfl),
   c9_multimodal_noop ⟨true, 1, true⟩ (fun _ => some ("x"))
      (PyObj.pyList [PyObj.mmText ("t")]) Option.none (Or.inr rfl)⟩

/-- C10 confirmed: whenever ServerManager.call returns an
ExecutionResult instead of raising, the success flag of that result
is true; every failure mode leaves through a raised typed error. -/
theorem c10_call_success_flag (st : ManagerState) (tc : ToonCompressor)
    (toonDumps : PyObj → Option String)
    (upstream : Except String (List PyObj))
    (serverName toolName : String) (arguments : List (String × PyObj))
    (r : ExecutionResult)
    (h : managerCall st tc toonDumps upstream serverName toolName arguments
          = Except.ok r) :
    r.success = true := by
  unfold managerCall at h
  repeat' split at h
  all_goals
    first
      | exact Except.noConfusion h
      | (cases h; rfl)

/-- C10 witness: a successful call against the connected fs backend
returns a result whose success flag the main theorem shows true. -/
theorem c10_call_success_flag_witness :
    managerCall stWithFs ⟨false, 3, false⟩ (fun _ => Option.none)
        (Except.ok [PyObj.mmText ("hello")]) ("fs") ("read_file")
        [(("path"), PyObj.pyStr ("/x"))]
      = Except.ok { success := true, data := PyObj.pyStr ("hello"),
                    rawData := PyObj.pyStr ("hello"), error := Option.none,
                    compressed := false }
    ∧ ({ success := true, data := PyObj.pyStr ("hello"),
         rawData := PyObj.pyStr ("hello"), error := Option.none,
         compressed := false } : ExecutionResult).success = true :=
  ⟨rfl,
   c10_call_success_flag stWithFs ⟨false, 3, false⟩ (fun _ => Option.none)
     (Except.ok [PyObj.mmText ("hello")]) ("fs") ("read_file")
     [(("path"), PyObj.pyStr ("/x"))] _ rfl⟩
